import Mathlib

/-!
# WebSocket RPC server: protocol layer and connection dispatcher

A shallow embedding of the repository's protocol layer (`protocol.py`),
function registry (`functions.py`) and connection dispatcher (`server.py`),
together with theorems settling the specification's claims about them.

JSON-representable Python values are modelled by the inductive type `PyVal`.
Python's `bool` is a subtype of `int`, so numeric predicates
(`isinstance(x, (int, float))`) accept booleans; the model mirrors this in
`PyVal.isNumber` and in arithmetic on `PyVal`.  Python floats are modelled as
rationals; no claim depends on floating-point rounding.  The standard
library's `json.loads` / `json.dumps` codec is an external collaborator
(spec §4.1): `parse_request` is parameterized by the decode function and the
wire text produced by `json.dumps` is not modelled, responses being compared
as structured values.
-/

/-- A JSON-representable Python value.  `none` is Python's `None` (JSON
`null`); `dict` is an association list with string keys, first binding
winning on lookup (Python dicts have unique keys, so parsed payloads carry
no duplicates). -/
inductive PyVal where
  | none : PyVal
  | bool (b : Bool) : PyVal
  | int (n : Int) : PyVal
  | float (q : ℚ) : PyVal
  | str (s : String) : PyVal
  | list (xs : List PyVal) : PyVal
  | dict (fields : List (String × PyVal)) : PyVal

/-- Python `d.get(key)` on an association list: the first binding of `key`, or
`Option.none` when the key is absent. -/
def pyGet? {α : Type} (fields : List (String × α)) (key : String) : Option α :=
  (fields.find? (fun kv => kv.1 == key)).map (fun kv => kv.2)

/-- Python truthiness (`bool(x)`): `None`, `False`, zero, the empty string
and empty containers are falsy. -/
def PyVal.truthy : PyVal → Bool
  | .none => false
  | .bool b => b
  | .int n => n != 0
  | .float q => q != 0
  | .str s => s != ""
  | .list xs => !xs.isEmpty
  | .dict fs => !fs.isEmpty

/-- Model of `isinstance(x, str)`. -/
def PyVal.isStr : PyVal → Bool
  | .str _ => true
  | _ => false

/-- Model of `isinstance(x, dict)`. -/
def PyVal.isDict : PyVal → Bool
  | .dict _ => true
  | _ => false

/-- Model of `isinstance(x, (int, float))`.  Python's `bool` is a subclass of `int`,
so booleans satisfy this check. -/
def PyVal.isNumber : PyVal → Bool
  | .bool _ => true
  | .int _ => true
  | .float _ => true
  | _ => false

/-- The underlying Lean string of a `PyVal.str`; used only under an `isStr`
guard. -/
def PyVal.asStr : PyVal → String
  | .str s => s
  | _ => ""

/-- The underlying association list of a `PyVal.dict`; used only under an
`isDict` guard. -/
def PyVal.asDict : PyVal → List (String × PyVal)
  | .dict fs => fs
  | _ => []

/-- The integer view of a Python `int`-family value (`bool` included, with
`True = 1`, `False = 0`); `Option.none` for floats and non-numbers. -/
def PyVal.intVal? : PyVal → Option Int
  | .bool b => some (if b then 1 else 0)
  | .int n => some n
  | _ => Option.none

/-- The rational view of any Python numeric value. -/
def PyVal.ratVal? : PyVal → Option ℚ
  | .bool b => some (if b then 1 else 0)
  | .int n => some (n : ℚ)
  | .float q => some q
  | _ => Option.none

/-- Python `a + b` on numbers: an `int` when both operands are of the
`int` family (booleans coerce to 0/1), a float otherwise. -/
def pyAddNum (a b : PyVal) : PyVal :=
  match a.intVal?, b.intVal? with
  | some m, some n => .int (m + n)
  | _, _ => .float ((a.ratVal?).getD 0 + (b.ratVal?).getD 0)

/-- Python `a * b` on numbers, with the same int/float coercion as
`pyAddNum`. -/
def pyMulNum (a b : PyVal) : PyVal :=
  match a.intVal?, b.intVal? with
  | some m, some n => .int (m * n)
  | _, _ => .float ((a.ratVal?).getD 0 * (b.ratVal?).getD 0)

/-- Model of `RPCError` (protocol.py): an error raised during RPC processing.
`request_id` is whatever value was extracted from the payload (Python
passes it through untyped), or `PyVal.none` when none could be
determined. -/
structure RPCError where
  request_id : PyVal
  code : String
  message : String

/-- Model of `RPCError.to_dict` (protocol.py): the JSON-serializable error
response. -/
def RPCError.to_dict (e : RPCError) : PyVal :=
  .dict [("request_id", e.request_id),
         ("status", .str "error"),
         ("error", .dict [("code", .str e.code), ("message", .str e.message)])]

/-- The validated request returned by `parse_request`: the dictionary
`{"request_id": ..., "action": ..., "params": ...}`. -/
structure ParsedRequest where
  request_id : PyVal
  action : String
  params : List (String × PyVal)

/-- The body of `parse_request` (protocol.py) after JSON decoding: shape
check, `request_id` extraction, `action` and `params` validation.
`payload.get("action")` yields Python `None` when the key is absent, while
`payload.get("params", {})` defaults to the empty dict only on absence. -/
def parse_payload (payload : PyVal) : Except RPCError ParsedRequest :=
  if !payload.isDict then
    .error ⟨.none, "invalid_payload", "Payload must be a JSON object"⟩
  else
    let fields := payload.asDict
    let request_id := (pyGet? fields "request_id").getD .none
    let action := (pyGet? fields "action").getD .none
    if !action.truthy || !action.isStr then
      .error ⟨request_id, "invalid_action", "Missing or invalid 'action'"⟩
    else
      let params := (pyGet? fields "params").getD (.dict [])
      if !params.isDict then
        .error ⟨request_id, "invalid_params", "'params' must be a dictionary"⟩
      else
        .ok ⟨request_id, action.asStr, params.asDict⟩

/-- Model of `parse_request` (protocol.py), parameterized by the external JSON
decoder (`json.loads`): on decode failure the error is `invalid_json` with
null `request_id`; otherwise the decoded payload is validated. -/
def parse_request (loads : String → Except String PyVal) (raw : String) :
    Except RPCError ParsedRequest :=
  match loads raw with
  | .error _ => .error ⟨.none, "invalid_json", "Payload is not valid JSON"⟩
  | .ok payload => parse_payload payload

/-- Model of `make_response` (protocol.py): the standardized response dictionary,
carrying `result` when the status is `"ok"` and `error` otherwise. -/
def make_response (request_id : PyVal) (status : String) (result : PyVal) :
    PyVal :=
  if status = "ok" then
    .dict [("request_id", request_id), ("status", .str status),
           ("result", result)]
  else
    .dict [("request_id", request_id), ("status", .str status),
           ("error", result)]

/-- The wire form of a request (spec §6): the JSON object
`{"request_id": ..., "action": ..., "params": ...}` that `encode` of the
Message Codec produces for a Request value. -/
def encodeRequest (request_id : PyVal) (action : String)
    (params : List (String × PyVal)) : PyVal :=
  .dict [("request_id", request_id), ("action", .str action),
         ("params", .dict params)]

/-- A Python exception escaping a handler, as the server distinguishes
them: `TypeError` (caught as `invalid_params`) versus any other
exception (caught as `server_error`). -/
inductive PyErr where
  | typeError (msg : String) : PyErr
  | otherError (msg : String) : PyErr

/-- A registry handler: invoked as `func(**params)`, it either returns a
value or raises. -/
abbrev Handler := List (String × PyVal) → Except PyErr PyVal

/-- Python keyword-argument binding for a two-parameter function
`def fname(n1, n2)` called as `fname(**kwargs)`: an unexpected keyword or
a missing required argument raises `TypeError` before the body runs. -/
def bindKwargs2 (fname n1 n2 : String) (kwargs : List (String × PyVal)) :
    Except PyErr (PyVal × PyVal) :=
  match kwargs.find? (fun kv => kv.1 != n1 && kv.1 != n2) with
  | some kv =>
      .error (.typeError
        (fname ++ "() got an unexpected keyword argument '" ++ kv.1 ++ "'"))
  | Option.none =>
    match pyGet? kwargs n1, pyGet? kwargs n2 with
    | some a, some b => .ok (a, b)
    | _, _ =>
        .error (.typeError
          (fname ++ "() missing required positional arguments"))

/-- Keyword-argument binding for a one-parameter function
`def fname(n1)`. -/
def bindKwargs1 (fname n1 : String) (kwargs : List (String × PyVal)) :
    Except PyErr PyVal :=
  match kwargs.find? (fun kv => kv.1 != n1) with
  | some kv =>
      .error (.typeError
        (fname ++ "() got an unexpected keyword argument '" ++ kv.1 ++ "'"))
  | Option.none =>
    match pyGet? kwargs n1 with
    | some a => .ok a
    | Option.none =>
        .error (.typeError
          (fname ++ "() missing required positional arguments"))

/-- Model of `add_numbers` (functions.py): validates that both arguments are
numbers via `isinstance(x, (int, float))` and returns their sum. -/
def add_numbers (kwargs : List (String × PyVal)) : Except PyErr PyVal :=
  match bindKwargs2 "add_numbers" "a" "b" kwargs with
  | .error e => .error e
  | .ok (a, b) =>
    if !a.isNumber || !b.isNumber then
      .error (.typeError "'a' and 'b' must be numbers")
    else
      .ok (pyAddNum a b)

/-- Model of `multiply_numbers` (functions.py). -/
def multiply_numbers (kwargs : List (String × PyVal)) : Except PyErr PyVal :=
  match bindKwargs2 "multiply_numbers" "a" "b" kwargs with
  | .error e => .error e
  | .ok (a, b) =>
    if !a.isNumber || !b.isNumber then
      .error (.typeError "'a' and 'b' must be numbers")
    else
      .ok (pyMulNum a b)

/-- Model of `echo` (functions.py): validates that the message is a string and
returns it. -/
def echo (kwargs : List (String × PyVal)) : Except PyErr PyVal :=
  match bindKwargs1 "echo" "message" kwargs with
  | .error e => .error e
  | .ok m =>
    if !m.isStr then
      .error (.typeError "'message' must be a string")
    else
      .ok m

/-- Model of `FUNCTION_REGISTRY` (functions.py): the static mapping from action
name to handler. -/
def FUNCTION_REGISTRY : List (String × Handler) :=
  [("add_numbers", add_numbers),
   ("multiply_numbers", multiply_numbers),
   ("echo", echo)]

/-- The dispatch section of `handle_connection` (server.py) for one
validated request: registry lookup, invocation, and conversion of the
outcome into the response dictionary that is sent back.  All registry
handlers are synchronous, so the `iscoroutinefunction` branch collapses
to a direct call.  The registry is a parameter so that the dispatcher is
stated once for any handler set; the server instantiates it with
`FUNCTION_REGISTRY`. -/
def processRequest (registry : List (String × Handler))
    (req : ParsedRequest) : PyVal :=
  match pyGet? registry req.action with
  | Option.none =>
      (RPCError.mk req.request_id "unknown_action"
        ("Unknown action '" ++ req.action ++ "'")).to_dict
  | some func =>
    match func req.params with
    | .ok result => make_response req.request_id "ok" result
    | .error (.typeError msg) =>
        (RPCError.mk req.request_id "invalid_params" msg).to_dict
    | .error (.otherError msg) =>
        (RPCError.mk req.request_id "server_error" msg).to_dict

/-- Processing of one raw incoming message in `handle_connection`
(server.py): parse errors are answered with the error's `to_dict`,
validated requests are dispatched.  Every branch sends exactly one
response. -/
def processMessage (registry : List (String × Handler))
    (loads : String → Except String PyVal) (raw : String) : PyVal :=
  match parse_request loads raw with
  | .error e => e.to_dict
  | .ok request => processRequest registry request

/-- The message loop of `handle_connection` (server.py): the `async for`
reads messages in arrival order and each is processed and answered before
the next is read; no protocol or handler error breaks the loop.  The
connection's lifetime is modelled as the list of messages the transport
delivers, and the result is the list of responses written back, in
order. -/
def handleConnection (registry : List (String × Handler))
    (loads : String → Except String PyVal) : List String → List PyVal
  | [] => []
  | raw :: rest =>
      processMessage registry loads raw :: handleConnection registry loads rest

/-! ## Helper lemmas and fixtures -/

/-- The message loop is a pointwise map of `processMessage` over the
arriving messages: no message's outcome terminates the loop. -/
theorem handleConnection_eq_map (registry : List (String × Handler))
    (loads : String → Except String PyVal) (msgs : List String) :
    handleConnection registry loads msgs =
      msgs.map (processMessage registry loads) := by
  induction msgs with
  | nil => rfl
  | cons x xs ih => simp [handleConnection, ih]

/-- The set of payload values whose `action` field is invalid per the
spec's words: missing (Python `None`), not a string, or the empty
string. -/
def invalidActionVal : PyVal → Bool
  | .str s => s == ""
  | _ => true

/-- A decode function that returns a fixed decoded payload, standing in
for `json.loads` on the text that serializes that payload. -/
def loadsFixture (payload : PyVal) : String → Except String PyVal :=
  fun _ => Except.ok payload

/-- A decode function that always fails, standing in for `json.loads` on
malformed input. -/
def loadsFail : String → Except String PyVal :=
  fun _ => Except.error "Expecting value"

/-- A handler raising a non-`TypeError` failure, modelling a registry
extended (as the spec's open registry allows) with a handler whose body
raises unexpectedly. -/
def boomHandler : Handler :=
  fun _ => Except.error (PyErr.otherError "boom")

/-! ## Claims -/

/-- C1: for every JSON object payload whose `action` field is missing,
not a string, or an empty string, `parse_request` fails with code
`invalid_action`, and the error's `request_id` equals the `request_id`
extracted from that same payload (the value present in the input, or
null when absent). -/
theorem claim1_invalid_action (fields : List (String × PyVal))
    (h : invalidActionVal ((pyGet? fields "action").getD PyVal.none) = true) :
    parse_payload (PyVal.dict fields) =
      .error ⟨(pyGet? fields "request_id").getD PyVal.none, "invalid_action",
        "Missing or invalid 'action'"⟩ := by
  have key : (!((pyGet? fields "action").getD PyVal.none).truthy
      || !((pyGet? fields "action").getD PyVal.none).isStr) = true := by
    cases hv : (pyGet? fields "action").getD PyVal.none
    case str s =>
      rw [hv] at h
      simp [invalidActionVal] at h
      simp [PyVal.truthy, PyVal.isStr, h]
    all_goals simp [PyVal.truthy, PyVal.isStr]
  simp [parse_payload, PyVal.isDict, PyVal.asDict, key]

/-- Witness for C1 at the payload
`{"request_id": "r1", "action": 3}`. -/
theorem claim1_witness :
    invalidActionVal
        ((pyGet? [("request_id", PyVal.str "r1"), ("action", PyVal.int 3)]
          "action").getD PyVal.none) = true
    ∧ parse_payload
        (PyVal.dict [("request_id", PyVal.str "r1"), ("action", PyVal.int 3)]) =
      .error ⟨PyVal.str "r1", "invalid_action", "Missing or invalid 'action'"⟩ :=
  ⟨rfl, claim1_invalid_action _ rfl⟩

/-- C2: for every valid Request value (request_id, non-empty string
action, mapping params), parsing the JSON-encoded form of that Request
with `parse_request` succeeds and reproduces the same action and the
same params (encode-then-parse round-trip); the text codec is external,
so the decode step is any `loads` that recovers the encoded object. -/
theorem claim2_roundtrip (loads : String → Except String PyVal)
    (raw : String) (rid : PyVal) (action : String)
    (params : List (String × PyVal)) (hne : action ≠ "")
    (hload : loads raw = Except.ok (encodeRequest rid action params)) :
    parse_request loads raw = Except.ok ⟨rid, action, params⟩ := by
  have h1 : (PyVal.str action).truthy = true := by
    simp [PyVal.truthy, hne]
  simp [parse_request, hload, encodeRequest, parse_payload, pyGet?,
    List.find?, PyVal.isDict, PyVal.asDict, PyVal.isStr, PyVal.asStr, h1]

/-- Witness for C2 at the Request
`{"request_id": "r1", "action": "echo", "params": {"message": "hi"}}`. -/
theorem claim2_witness :
    ("echo" ≠ "")
    ∧ loadsFixture
        (encodeRequest (PyVal.str "r1") "echo" [("message", PyVal.str "hi")]) "x" =
      Except.ok (encodeRequest (PyVal.str "r1") "echo" [("message", PyVal.str "hi")])
    ∧ parse_request
        (loadsFixture
          (encodeRequest (PyVal.str "r1") "echo" [("message", PyVal.str "hi")])) "x" =
      Except.ok ⟨PyVal.str "r1", "echo", [("message", PyVal.str "hi")]⟩ :=
  ⟨by decide, rfl, claim2_roundtrip _ "x" _ "echo" _ (by decide) rfl⟩

/-- C3: for every validated Request whose action is not a key of the
function registry, dispatch returns an Error response with code
`unknown_action`, message `Unknown action '<action>'`, and the same
request_id as the Request, and the connection is not terminated: the
messages before and after it on the connection are still answered in
place. -/
theorem claim3_unknown_action (loads : String → Except String PyVal)
    (raw : String) (rid : PyVal) (action : String)
    (params : List (String × PyVal)) (pre post : List String)
    (hparse : parse_request loads raw = Except.ok ⟨rid, action, params⟩)
    (hreg : pyGet? FUNCTION_REGISTRY action = Option.none) :
    handleConnection FUNCTION_REGISTRY loads (pre ++ raw :: post) =
      handleConnection FUNCTION_REGISTRY loads pre ++
        (RPCError.mk rid "unknown_action"
          ("Unknown action '" ++ action ++ "'")).to_dict ::
          handleConnection FUNCTION_REGISTRY loads post := by
  induction pre with
  | nil => simp [handleConnection, processMessage, hparse, processRequest, hreg]
  | cons x xs ih => simp [handleConnection, ih]

/-- Witness for C3 at the request
`{"request_id": "r3", "action": "bogus", "params": {}}`. -/
theorem claim3_witness :
    parse_request (loadsFixture (encodeRequest (PyVal.str "r3") "bogus" [])) "x" =
      Except.ok ⟨PyVal.str "r3", "bogus", []⟩
    ∧ pyGet? FUNCTION_REGISTRY "bogus" = Option.none
    ∧ handleConnection FUNCTION_REGISTRY
        (loadsFixture (encodeRequest (PyVal.str "r3") "bogus" [])) ["x"] =
      [(RPCError.mk (PyVal.str "r3") "unknown_action"
        "Unknown action 'bogus'").to_dict] :=
  ⟨rfl, rfl, claim3_unknown_action _ "x" _ "bogus" [] [] [] rfl rfl⟩

/-- C4: for every validated Request whose params do not satisfy the
looked-up handler's contract (wrong parameter names, or argument values
the handler rejects with a `TypeError`, e.g. `add_numbers` on
non-numeric arguments), dispatch returns an Error response with code
`invalid_params` and the Request's request_id, and the connection keeps
serving the surrounding messages rather than crashing or closing. -/
theorem claim4_invalid_params (loads : String → Except String PyVal)
    (raw : String) (rid : PyVal) (action : String)
    (params : List (String × PyVal)) (f : Handler) (msg : String)
    (pre post : List String)
    (hparse : parse_request loads raw = Except.ok ⟨rid, action, params⟩)
    (hreg : pyGet? FUNCTION_REGISTRY action = some f)
    (herr : f params = Except.error (PyErr.typeError msg)) :
    handleConnection FUNCTION_REGISTRY loads (pre ++ raw :: post) =
      handleConnection FUNCTION_REGISTRY loads pre ++
        (RPCError.mk rid "invalid_params" msg).to_dict ::
          handleConnection FUNCTION_REGISTRY loads post := by
  induction pre with
  | nil =>
      simp [handleConnection, processMessage, hparse, processRequest, hreg, herr]
  | cons x xs ih => simp [handleConnection, ih]

/-- Witness for C4 at the request
`{"request_id": "r4", "action": "add_numbers", "params": {"a": "x", "b": "y"}}`. -/
theorem claim4_witness :
    parse_request
        (loadsFixture (encodeRequest (PyVal.str "r4") "add_numbers"
          [("a", PyVal.str "x"), ("b", PyVal.str "y")])) "x" =
      Except.ok ⟨PyVal.str "r4", "add_numbers",
        [("a", PyVal.str "x"), ("b", PyVal.str "y")]⟩
    ∧ pyGet? FUNCTION_REGISTRY "add_numbers" = some add_numbers
    ∧ add_numbers [("a", PyVal.str "x"), ("b", PyVal.str "y")] =
        Except.error (PyErr.typeError "'a' and 'b' must be numbers")
    ∧ handleConnection FUNCTION_REGISTRY
        (loadsFixture (encodeRequest (PyVal.str "r4") "add_numbers"
          [("a", PyVal.str "x"), ("b", PyVal.str "y")])) ["x"] =
      [(RPCError.mk (PyVal.str "r4") "invalid_params"
        "'a' and 'b' must be numbers").to_dict] :=
  ⟨rfl, rfl, rfl,
    claim4_invalid_params _ "x" _ "add_numbers" _ add_numbers _ [] [] rfl rfl rfl⟩

/-- C5: for every validated Request whose handler invocation raises a
failure other than a parameter/type mismatch, dispatch returns an Error
response with code `server_error` and the Request's request_id, and the
connection remains open and continues serving subsequent messages on the
same connection.  Stated over an arbitrary registry since the repo's
three registered handlers raise only `TypeError`; the dispatcher's code
is registry-generic. -/
theorem claim5_server_error (registry : List (String × Handler))
    (loads : String → Except String PyVal) (raw : String) (rid : PyVal)
    (action : String) (params : List (String × PyVal)) (f : Handler)
    (msg : String) (pre post : List String)
    (hparse : parse_request loads raw = Except.ok ⟨rid, action, params⟩)
    (hreg : pyGet? registry action = some f)
    (herr : f params = Except.error (PyErr.otherError msg)) :
    handleConnection registry loads (pre ++ raw :: post) =
      handleConnection registry loads pre ++
        (RPCError.mk rid "server_error" msg).to_dict ::
          handleConnection registry loads post := by
  induction pre with
  | nil =>
      simp [handleConnection, processMessage, hparse, processRequest, hreg, herr]
  | cons x xs ih => simp [handleConnection, ih]

/-- Witness for C5: a registry extended with a handler that raises a
non-`TypeError` failure; the connection answers the failing message and
the one after it. -/
theorem claim5_witness :
    parse_request (loadsFixture (encodeRequest (PyVal.str "r5") "boom" [])) "x" =
      Except.ok ⟨PyVal.str "r5", "boom", []⟩
    ∧ pyGet? [("boom", boomHandler)] "boom" = some boomHandler
    ∧ boomHandler [] = Except.error (PyErr.otherError "boom")
    ∧ handleConnection [("boom", boomHandler)]
        (loadsFixture (encodeRequest (PyVal.str "r5") "boom" [])) ["x", "y"] =
      [(RPCError.mk (PyVal.str "r5") "server_error" "boom").to_dict,
       (RPCError.mk (PyVal.str "r5") "server_error" "boom").to_dict] :=
  ⟨rfl, rfl, rfl,
    claim5_server_error [("boom", boomHandler)] _ "x" _ "boom" [] boomHandler
      "boom" [] ["y"] rfl rfl rfl⟩

/-- C6: for every input string that is not syntactically valid JSON
(i.e. on which the decoder fails), `parse_request` fails with an Error
whose code is `invalid_json` and whose request_id is null. -/
theorem claim6_invalid_json (loads : String → Except String PyVal)
    (raw : String) (e : String) (h : loads raw = Except.error e) :
    parse_request loads raw =
      Except.error ⟨PyVal.none, "invalid_json", "Payload is not valid JSON"⟩ := by
  simp [parse_request, h]

/-- Witness for C6 on malformed input. -/
theorem claim6_witness :
    loadsFail "not json" = Except.error "Expecting value"
    ∧ parse_request loadsFail "not json" =
        Except.error ⟨PyVal.none, "invalid_json", "Payload is not valid JSON"⟩ :=
  ⟨rfl, claim6_invalid_json loadsFail "not json" "Expecting value" rfl⟩

/-- C7: for every JSON object payload with a valid (non-empty string)
action, when the `params` field is present but not an object,
`parse_request` fails with code `invalid_params` and the request_id
extracted from the payload; when `params` is absent, parsing succeeds
with `params` equal to the empty mapping. -/
theorem claim7_params (fields : List (String × PyVal)) (s : String)
    (haction : (pyGet? fields "action").getD PyVal.none = PyVal.str s)
    (hne : s ≠ "") :
    (∀ v : PyVal, pyGet? fields "params" = some v → v.isDict = false →
      parse_payload (PyVal.dict fields) =
        .error ⟨(pyGet? fields "request_id").getD PyVal.none, "invalid_params",
          "'params' must be a dictionary"⟩)
    ∧ (pyGet? fields "params" = Option.none →
      parse_payload (PyVal.dict fields) =
        .ok ⟨(pyGet? fields "request_id").getD PyVal.none, s, []⟩) := by
  have htr : ((pyGet? fields "action").getD PyVal.none).truthy = true := by
    rw [haction]; simp [PyVal.truthy, hne]
  have hstr : ((pyGet? fields "action").getD PyVal.none).isStr = true := by
    rw [haction]; rfl
  constructor
  · intro v hv hvd
    simp only [PyVal.isDict] at hvd
    simp [parse_payload, PyVal.isDict, PyVal.asDict, htr, hstr, hv, hvd]
  · intro hv
    simp [parse_payload, PyVal.isDict, PyVal.asDict, haction, hv, PyVal.truthy,
      PyVal.isStr, hne, PyVal.asStr]

/-- Witness for C7: the payload
`{"request_id": "r7", "action": "echo", "params": 5}` is rejected with
`invalid_params`, and `{"request_id": "r7", "action": "echo"}` parses
with empty params. -/
theorem claim7_witness :
    (pyGet? [("request_id", PyVal.str "r7"), ("action", PyVal.str "echo"),
        ("params", PyVal.int 5)] "action").getD PyVal.none = PyVal.str "echo"
    ∧ parse_payload (PyVal.dict [("request_id", PyVal.str "r7"),
        ("action", PyVal.str "echo"), ("params", PyVal.int 5)]) =
      .error ⟨PyVal.str "r7", "invalid_params", "'params' must be a dictionary"⟩
    ∧ parse_payload (PyVal.dict [("request_id", PyVal.str "r7"),
        ("action", PyVal.str "echo")]) =
      .ok ⟨PyVal.str "r7", "echo", []⟩ := by
  refine ⟨rfl, ?_, ?_⟩
  · exact (claim7_params
      [("request_id", PyVal.str "r7"), ("action", PyVal.str "echo"),
        ("params", PyVal.int 5)] "echo" rfl (by decide)).1 (PyVal.int 5) rfl rfl
  · exact (claim7_params
      [("request_id", PyVal.str "r7"), ("action", PyVal.str "echo")]
      "echo" rfl (by decide)).2 rfl

/-- C8: for every request_id and result value, the Response built with
status `ok` contains a `result` field and no `error` field, the Response
built with status `error` contains an `error` field and no `result`
field, and in both cases the given request_id and status are echoed
unchanged. -/
theorem claim8_response_shape (rid result : PyVal) :
    pyGet? (make_response rid "ok" result).asDict "result" = some result
    ∧ pyGet? (make_response rid "ok" result).asDict "error" = Option.none
    ∧ pyGet? (make_response rid "ok" result).asDict "request_id" = some rid
    ∧ pyGet? (make_response rid "ok" result).asDict "status" =
        some (PyVal.str "ok")
    ∧ pyGet? (make_response rid "error" result).asDict "error" = some result
    ∧ pyGet? (make_response rid "error" result).asDict "result" = Option.none
    ∧ pyGet? (make_response rid "error" result).asDict "request_id" = some rid
    ∧ pyGet? (make_response rid "error" result).asDict "status" =
        some (PyVal.str "error") :=
  ⟨rfl, rfl, rfl, rfl, rfl, rfl, rfl, rfl⟩

/-- C9: on a single connection, with the synchronous handlers the
server registers, messages are processed and their responses written
back in arrival order: the response list has one entry per message and
its i-th entry is the processing of the i-th message received. -/
theorem claim9_in_order (registry : List (String × Handler))
    (loads : String → Except String PyVal) (msgs : List String) (i : Nat)
    (h : i < msgs.length) :
    (handleConnection registry loads msgs).length = msgs.length
    ∧ (handleConnection registry loads msgs)[i]? =
        some (processMessage registry loads (msgs.get ⟨i, h⟩)) := by
  constructor
  · rw [handleConnection_eq_map]
    exact List.length_map msgs (processMessage registry loads)
  · rw [handleConnection_eq_map, List.getElem?_map,
      List.getElem?_eq_getElem h]
    simp [List.get_eq_getElem]

/-- Witness for C9 on a two-message connection. -/
theorem claim9_witness :
    1 < (["a", "b"] : List String).length
    ∧ ((handleConnection FUNCTION_REGISTRY loadsFail ["a", "b"]).length =
        (["a", "b"] : List String).length
      ∧ (handleConnection FUNCTION_REGISTRY loadsFail ["a", "b"])[1]? =
          some (processMessage FUNCTION_REGISTRY loadsFail
            ((["a", "b"] : List String).get ⟨1, by decide⟩))) :=
  ⟨by decide, claim9_in_order FUNCTION_REGISTRY loadsFail ["a", "b"] 1 (by decide)⟩

/-- C10: for every pair of boolean values a and b, `add_numbers` does
not raise and returns their arithmetic sum (booleans satisfy the
handler's `isinstance(x, (int, float))` check, `True` counting as 1 and
`False` as 0), so a dispatch of `add_numbers` with boolean params yields
a status=ok response, never `invalid_params`. -/
theorem claim10_add_numbers_bools (a b : Bool) (rid : PyVal) :
    add_numbers [("a", PyVal.bool a), ("b", PyVal.bool b)] =
      Except.ok (PyVal.int ((if a then 1 else 0) + (if b then 1 else 0)))
    ∧ processRequest FUNCTION_REGISTRY
        ⟨rid, "add_numbers", [("a", PyVal.bool a), ("b", PyVal.bool b)]⟩ =
      make_response rid "ok"
        (PyVal.int ((if a then 1 else 0) + (if b then 1 else 0))) :=
  ⟨rfl, rfl⟩
